import Mathlib

/-
Verification of verify_layout.py: a script that launches a headless browser
inside a scoped playwright context, navigates to the homepage and docs page of
a local server, reads the rendered header height of each page, prints it, and
saves a full-page screenshot per page, closing the browser on the normal path.

The run is embedded shallowly as a function from an environment (whether the
browser launches, whether each navigation succeeds, whether a header element is
present on each page and its offsetHeight, and the rendered page images) to a
result together with a trace of completed external effects.
-/

namespace VerifyLayout

/-- Environment the script runs against: browser-launch success, success of
each of the two navigations, the header element state of each page (none when
no element matches the header selector, some h when it exists with rendered
offsetHeight h), and the rendered full-page image of each page. -/
structure Env where
  launchOk : Bool
  homeNav : Bool
  docsNav : Bool
  homeHeader : Option Nat
  docsHeader : Option Nat
  homeImage : String
  docsImage : String
deriving Repr, DecidableEq

/-- External effects the script performs, recorded when the corresponding step
completes. A navigate event carries the HTTP request target of the GET, a
screenshot event carries the destination path, the written image and the
full-page flag. -/
inductive Event where
  | launch
  | newPage
  | navigate (url : String)
  | evalJs (expr : String)
  | printLine (line : String)
  | screenshot (path : String) (image : String) (fullPage : Bool)
  | browserClose
  | playwrightStop
deriving Repr, DecidableEq

/-- Unhandled error classes of the script: browser-launch failure, navigation
failure (carrying the URL passed to goto), and in-page evaluation failure. -/
inductive Err where
  | launchError
  | navigationError (url : String)
  | evaluationError
deriving Repr, DecidableEq

/-- URL literal passed to the first goto call in the source. -/
def homeUrl : String := "http://localhost:6007"

/-- URL literal passed to the second goto call in the source. -/
def docsUrl : String := "http://localhost:6007/getting-started/installation/"

/-- JavaScript expression the source evaluates on each page. -/
def headerExpr : String := "() => document.querySelector(\x27header\x27).offsetHeight"

/-- HTTP request target of a navigation: a URL whose authority is followed by
no path is requested with path "/" (origin-form request target), so a GET for
http://localhost:6007 is a GET for http://localhost:6007/. -/
def httpTarget (url : String) : String :=
  if (url.toList.drop 7).contains '/' then url else url ++ "/"

/-- Model of p.chromium.launch(): succeeds or raises per the environment. -/
def launchChromium (env : Env) : Except Err Unit :=
  if env.launchOk then Except.ok () else Except.error Err.launchError

/-- Model of page.goto(url): on success the browser has issued an HTTP GET to
the request target of url; on failure a navigation error propagates. -/
def goto (ok : Bool) (url : String) : Except Err String :=
  if ok then Except.ok (httpTarget url) else Except.error (Err.navigationError url)

/-- Model of page.evaluate(headerExpr): yields the header offsetHeight when a
header element exists, and raises an evaluation error when
document.querySelector finds no header element. -/
def evalHeaderHeight (header : Option Nat) : Except Err Nat :=
  match header with
  | some h => Except.ok h
  | none => Except.error Err.evaluationError

/-- Line printed for the homepage check, from the f-string in the source. -/
def homepageLine (h : Nat) : String := s!"Homepage Header Height: {h}px"

/-- Line printed for the docs check, from the f-string in the source. -/
def docsLine (h : Nat) : String := s!"Docs Header Height: {h}px"

/-- Body of verify inside the playwright context: launch, new page, then for
each of the two checks in order goto, evaluate, print, screenshot, and finally
browser.close(); the first failing step aborts the rest of the body. Returns
the result and the trace of completed effects. -/
def verifyBody (env : Env) : Except Err Unit × List Event :=
  match launchChromium env with
  | Except.error e => (Except.error e, [])
  | Except.ok _ =>
  match goto env.homeNav homeUrl with
  | Except.error e => (Except.error e, [Event.launch, Event.newPage])
  | Except.ok u1 =>
  match evalHeaderHeight env.homeHeader with
  | Except.error e =>
      (Except.error e, [Event.launch, Event.newPage, Event.navigate u1])
  | Except.ok h1 =>
  match goto env.docsNav docsUrl with
  | Except.error e =>
      (Except.error e,
        [Event.launch, Event.newPage, Event.navigate u1, Event.evalJs headerExpr,
         Event.printLine (homepageLine h1),
         Event.screenshot ("homepage_after.png") env.homeImage true])
  | Except.ok u2 =>
  match evalHeaderHeight env.docsHeader with
  | Except.error e =>
      (Except.error e,
        [Event.launch, Event.newPage, Event.navigate u1, Event.evalJs headerExpr,
         Event.printLine (homepageLine h1),
         Event.screenshot ("homepage_after.png") env.homeImage true,
         Event.navigate u2])
  | Except.ok h2 =>
      (Except.ok (),
        [Event.launch, Event.newPage, Event.navigate u1, Event.evalJs headerExpr,
         Event.printLine (homepageLine h1),
         Event.screenshot ("homepage_after.png") env.homeImage true,
         Event.navigate u2, Event.evalJs headerExpr,
         Event.printLine (docsLine h2),
         Event.screenshot ("docs_after.png") env.docsImage true,
         Event.browserClose])

/-- The verify routine: the with-statement around sync_playwright() runs the
body and tears the playwright context down on both the normal and the
exceptional exit, re-raising any error. -/
def verify (env : Env) : Except Err Unit × List Event :=
  match verifyBody env with
  | (r, t) => (r, t ++ [Event.playwrightStop])

/-- Lines emitted on standard output during a trace, in order. -/
def stdoutLines (t : List Event) : List String :=
  t.filterMap (fun e => match e with | Event.printLine s => some s | _ => none)

/-- Paths of screenshot files written during a trace, in order. -/
def filesWritten (t : List Event) : List String :=
  t.filterMap (fun e => match e with | Event.screenshot p _ _ => some p | _ => none)

/-- HTTP GET request targets of the navigations in a trace, in order. -/
def navigations (t : List Event) : List String :=
  t.filterMap (fun e => match e with | Event.navigate u => some u | _ => none)

/-- Whether the explicit browser.close() call happened during a trace. -/
def browserClosed (t : List Event) : Bool :=
  t.any (fun e => match e with | Event.browserClose => true | _ => false)

/-- Whether the scoped playwright context was torn down during a trace. -/
def playwrightStopped (t : List Event) : Bool :=
  t.any (fun e => match e with | Event.playwrightStop => true | _ => false)

/-- Effect of one event on the working directory, viewed as a partial map from
file names to file contents: a screenshot write stores the image at its path,
overwriting whatever was there; other events leave the directory unchanged. -/
def applyEvent (fs : String → Option String) (e : Event) : String → Option String :=
  match e with
  | Event.screenshot p img _ => fun q => if q = p then some img else fs q
  | _ => fs

/-- Working directory after running a trace from an initial directory. -/
def finalFs (t : List Event) (fs : String → Option String) : String → Option String :=
  t.foldl applyEvent fs

/-- Top level of the module: the def of verify has no effect at import time and
verify is invoked only when the module runs as the main program. -/
def moduleRun (modName : String) (env : Env) : Except Err Unit × List Event :=
  if modName = "__main__" then verify env else (Except.ok (), [])

/-- Environment of a fully successful run: server reachable, both headers 64px. -/
def envOk : Env := ⟨true, true, true, some 64, some 64, "home-image", "docs-image"⟩

/-- Environment with the server down: both navigations fail. -/
def envDown : Env := ⟨true, false, false, none, none, "", ""⟩

/-- Environment where the homepage check succeeds at 64px but the docs page has
no header element. -/
def envDocsMissing : Env := ⟨true, true, true, some 64, none, "home-image", ""⟩

/-- Environment where the homepage has no header element. -/
def envHomeMissing : Env := ⟨true, true, true, none, none, "", ""⟩

/-- Environment where the browser fails to launch. -/
def envLaunchFail : Env := ⟨false, true, true, some 64, some 64, "", ""⟩

/-- Environment where the homepage check succeeds at 64px but the docs
navigation fails. -/
def envDocsNavFail : Env := ⟨true, true, false, some 64, some 64, "home-image", ""⟩

/-- Trace of a fully successful run, shared by the proofs below. -/
theorem success_trace_eq (env : Env) (h1 h2 : Nat)
    (hl : env.launchOk = true) (hn1 : env.homeNav = true)
    (hh1 : env.homeHeader = some h1) (hn2 : env.docsNav = true)
    (hh2 : env.docsHeader = some h2) :
    (verify env).2 =
      [Event.launch, Event.newPage,
       Event.navigate (httpTarget homeUrl), Event.evalJs headerExpr,
       Event.printLine (homepageLine h1),
       Event.screenshot ("homepage_after.png") env.homeImage true,
       Event.navigate (httpTarget docsUrl), Event.evalJs headerExpr,
       Event.printLine (docsLine h2),
       Event.screenshot ("docs_after.png") env.docsImage true,
       Event.browserClose, Event.playwrightStop] := by
  simp [verify, verifyBody, launchChromium, goto, evalHeaderHeight,
    hl, hn1, hh1, hn2, hh2]

/-- C1: against a reachable server with a header on both pages, verify writes
exactly the two PNG files homepage_after.png then docs_after.png, prints
exactly the two lines homepage then docs with the measured heights in the
fixed format, and completes normally. -/
theorem verify_success_outputs (env : Env) (h1 h2 : Nat)
    (hl : env.launchOk = true) (hn1 : env.homeNav = true)
    (hh1 : env.homeHeader = some h1) (hn2 : env.docsNav = true)
    (hh2 : env.docsHeader = some h2) :
    filesWritten (verify env).2 = ["homepage_after.png", "docs_after.png"] ∧
    stdoutLines (verify env).2 = [homepageLine h1, docsLine h2] ∧
    (verify env).1 = Except.ok () := by
  simp [verify, verifyBody, launchChromium, goto, evalHeaderHeight,
    hl, hn1, hh1, hn2, hh2, filesWritten, stdoutLines]

theorem verify_success_outputs_witness :
    filesWritten (verify envOk).2 = ["homepage_after.png", "docs_after.png"] ∧
    stdoutLines (verify envOk).2 = [homepageLine 64, docsLine 64] ∧
    (verify envOk).1 = Except.ok () :=
  verify_success_outputs envOk 64 64 rfl rfl rfl rfl rfl

/-- C2: when the server is not reachable so the first navigation fails, verify
terminates with an unhandled error having printed no diagnostic line and
written no screenshot file. -/
theorem unreachable_no_outputs (env : Env) (hn : env.homeNav = false) :
    (∃ e, (verify env).1 = Except.error e) ∧
    stdoutLines (verify env).2 = [] ∧
    filesWritten (verify env).2 = [] := by
  cases hl : env.launchOk <;>
    simp [verify, verifyBody, launchChromium, goto, hn, hl, stdoutLines, filesWritten]

theorem unreachable_no_outputs_witness :
    (∃ e, (verify envDown).1 = Except.error e) ∧
    stdoutLines (verify envDown).2 = [] ∧
    filesWritten (verify envDown).2 = [] :=
  unreachable_no_outputs envDown rfl

/-- C3 counterexample: on the run where the server is down the first goto
raises, and the browser is never closed: the scoped acquisition wraps only the
playwright context, so it does not guarantee browser teardown on the failure
path, contrary to the claim that teardown is guaranteed on success or failure. -/
theorem browser_not_closed_on_failure :
    (verify envDown).1 = Except.error (Err.navigationError homeUrl) ∧
    browserClosed (verify envDown).2 = false := by
  constructor <;> rfl

/-- C3 amended: on every run the scoped playwright context is torn down by the
end of the routine, and on every run the browser is closed by the explicit
close call exactly when the routine completes normally; hence whenever an
earlier step raises, in any of the failure modes, the browser close call is
never reached. -/
theorem scoped_teardown (env : Env) :
    playwrightStopped (verify env).2 = true ∧
    (browserClosed (verify env).2 = true ↔ (verify env).1 = Except.ok ()) := by
  constructor
  · match h : verifyBody env with
    | (r, t) => simp [verify, h, playwrightStopped]
  · rcases env with ⟨lo, hn, dn, hh, dh, hi, di⟩
    cases lo <;> cases hn <;> cases dn <;> cases hh <;> cases dh <;>
      simp_all [verify, verifyBody, launchChromium, goto, evalHeaderHeight, browserClosed]

theorem scoped_teardown_witness :
    playwrightStopped (verify envOk).2 = true ∧
    (browserClosed (verify envOk).2 = true ↔ (verify envOk).1 = Except.ok ()) :=
  scoped_teardown envOk

/-- C4: the browser close call happens exactly on the normal exit path of
verify, and there is a run in which an earlier step raises (the server-down run,
where the first navigation fails) and the browser is never closed. -/
theorem browser_close_iff_normal_exit :
    (∀ env : Env, browserClosed (verify env).2 = true ↔ (verify env).1 = Except.ok ()) ∧
    ((verify envDown).1 = Except.error (Err.navigationError homeUrl) ∧
      browserClosed (verify envDown).2 = false) := by
  refine ⟨fun env => ?_, rfl, rfl⟩
  rcases env with ⟨lo, hn, dn, hh, dh, hi, di⟩
  cases lo <;> cases hn <;> cases dn <;> cases hh <;> cases dh <;>
    simp_all [verify, verifyBody, launchChromium, goto, evalHeaderHeight, browserClosed]

/-- C5 counterexample: on the run where the homepage check succeeds at 64px and
the docs page has no header element, verify terminates with an unhandled
evaluation error, but the homepage diagnostic line has been printed and the
homepage screenshot written, refuting the claim that on a failing run no
diagnostic line is printed and no screenshot is written for any check. -/
theorem docs_failure_keeps_homepage_outputs :
    (verify envDocsMissing).1 = Except.error Err.evaluationError ∧
    stdoutLines (verify envDocsMissing).2 = [homepageLine 64] ∧
    filesWritten (verify envDocsMissing).2 = ["homepage_after.png"] := by
  refine ⟨rfl, ?_, rfl⟩
  rfl

/-- C5 amended: any failing step — launch failure, either navigation failure,
or either evaluation failure — terminates verify immediately with an unhandled
error, with no retry and with no diagnostic line or screenshot produced for the
failing step or any later step; outputs of steps completed before the failure
remain. The five cases below enumerate every failing run: a failure at or
before the homepage check leaves no output at all, while a failure during the
docs check (navigation or evaluation) leaves exactly the homepage line and the
homepage screenshot. -/
theorem failure_terminates_after_completed_outputs :
    (∀ env : Env, env.launchOk = false →
      (verify env).1 = Except.error Err.launchError ∧
      stdoutLines (verify env).2 = [] ∧
      filesWritten (verify env).2 = []) ∧
    (∀ env : Env, env.launchOk = true → env.homeNav = false →
      (verify env).1 = Except.error (Err.navigationError homeUrl) ∧
      stdoutLines (verify env).2 = [] ∧
      filesWritten (verify env).2 = []) ∧
    (∀ env : Env, env.launchOk = true → env.homeNav = true →
      env.homeHeader = none →
      (verify env).1 = Except.error Err.evaluationError ∧
      stdoutLines (verify env).2 = [] ∧
      filesWritten (verify env).2 = []) ∧
    (∀ env : Env, ∀ h1 : Nat, env.launchOk = true → env.homeNav = true →
      env.homeHeader = some h1 → env.docsNav = false →
      (verify env).1 = Except.error (Err.navigationError docsUrl) ∧
      stdoutLines (verify env).2 = [homepageLine h1] ∧
      filesWritten (verify env).2 = ["homepage_after.png"]) ∧
    (∀ env : Env, ∀ h1 : Nat, env.launchOk = true → env.homeNav = true →
      env.homeHeader = some h1 → env.docsNav = true → env.docsHeader = none →
      (verify env).1 = Except.error Err.evaluationError ∧
      stdoutLines (verify env).2 = [homepageLine h1] ∧
      filesWritten (verify env).2 = ["homepage_after.png"]) := by
  refine ⟨fun env hl => ?_, fun env hl hn1 => ?_, fun env hl hn1 hh1 => ?_,
    fun env h1 hl hn1 hh1 hn2 => ?_, fun env h1 hl hn1 hh1 hn2 hh2 => ?_⟩ <;>
    simp [verify, verifyBody, launchChromium, goto, evalHeaderHeight,
      hl, stdoutLines, filesWritten] <;>
    simp_all [goto, evalHeaderHeight, stdoutLines, filesWritten]

theorem failure_terminates_after_completed_outputs_witness :
    ((verify envLaunchFail).1 = Except.error Err.launchError ∧
      stdoutLines (verify envLaunchFail).2 = [] ∧
      filesWritten (verify envLaunchFail).2 = []) ∧
    ((verify envDown).1 = Except.error (Err.navigationError homeUrl) ∧
      stdoutLines (verify envDown).2 = [] ∧
      filesWritten (verify envDown).2 = []) ∧
    ((verify envHomeMissing).1 = Except.error Err.evaluationError ∧
      stdoutLines (verify envHomeMissing).2 = [] ∧
      filesWritten (verify envHomeMissing).2 = []) ∧
    ((verify envDocsNavFail).1 = Except.error (Err.navigationError docsUrl) ∧
      stdoutLines (verify envDocsNavFail).2 = [homepageLine 64] ∧
      filesWritten (verify envDocsNavFail).2 = ["homepage_after.png"]) ∧
    ((verify envDocsMissing).1 = Except.error Err.evaluationError ∧
      stdoutLines (verify envDocsMissing).2 = [homepageLine 64] ∧
      filesWritten (verify envDocsMissing).2 = ["homepage_after.png"]) :=
  ⟨failure_terminates_after_completed_outputs.1 envLaunchFail rfl,
   failure_terminates_after_completed_outputs.2.1 envDown rfl rfl,
   failure_terminates_after_completed_outputs.2.2.1 envHomeMissing rfl rfl rfl,
   failure_terminates_after_completed_outputs.2.2.2.1 envDocsNavFail 64 rfl rfl rfl rfl,
   failure_terminates_after_completed_outputs.2.2.2.2 envDocsMissing 64 rfl rfl rfl rfl rfl⟩

/-- C6: on a page whose header selector matches no element, the in-page
evaluation fails with the evaluation-error class condition, which is not caught
and propagates to the caller as the result of verify, terminating the run; this
holds both when the homepage lacks the header and when the docs page does. -/
theorem missing_header_evaluation_error :
    (∀ env : Env, env.launchOk = true → env.homeNav = true →
      env.homeHeader = none →
      (verify env).1 = Except.error Err.evaluationError) ∧
    (∀ env : Env, ∀ h1 : Nat, env.launchOk = true → env.homeNav = true →
      env.homeHeader = some h1 → env.docsNav = true → env.docsHeader = none →
      (verify env).1 = Except.error Err.evaluationError) := by
  constructor
  · intro env hl hn1 hh1
    simp [verify, verifyBody, launchChromium, goto, evalHeaderHeight, hl, hn1, hh1]
  · intro env h1 hl hn1 hh1 hn2 hh2
    simp [verify, verifyBody, launchChromium, goto, evalHeaderHeight,
      hl, hn1, hh1, hn2, hh2]

theorem missing_header_evaluation_error_witness :
    (verify envHomeMissing).1 = Except.error Err.evaluationError ∧
    (verify envDocsMissing).1 = Except.error Err.evaluationError :=
  ⟨missing_header_evaluation_error.1 envHomeMissing rfl rfl rfl,
   missing_header_evaluation_error.2 envDocsMissing 64 rfl rfl rfl rfl rfl⟩

/-- C7: on a successful run the trace is exactly launch, new page, then for the
homepage navigate, evaluate, print, full-page screenshot, then the same four
steps for the docs page, then browser close and playwright teardown; and each
screenshot write ends with its page image stored at the fixed file name
whatever the directory held before, so an existing file is overwritten. -/
theorem step_order (env : Env) (h1 h2 : Nat)
    (hl : env.launchOk = true) (hn1 : env.homeNav = true)
    (hh1 : env.homeHeader = some h1) (hn2 : env.docsNav = true)
    (hh2 : env.docsHeader = some h2) :
    (verify env).2 =
      [Event.launch, Event.newPage,
       Event.navigate (httpTarget homeUrl), Event.evalJs headerExpr,
       Event.printLine (homepageLine h1),
       Event.screenshot ("homepage_after.png") env.homeImage true,
       Event.navigate (httpTarget docsUrl), Event.evalJs headerExpr,
       Event.printLine (docsLine h2),
       Event.screenshot ("docs_after.png") env.docsImage true,
       Event.browserClose, Event.playwrightStop] ∧
    (∀ fs0 : String → Option String,
       finalFs (verify env).2 fs0 ("homepage_after.png") = some env.homeImage ∧
       finalFs (verify env).2 fs0 ("docs_after.png") = some env.docsImage) := by
  have ht := success_trace_eq env h1 h2 hl hn1 hh1 hn2 hh2
  refine ⟨ht, fun fs0 => ?_⟩
  rw [ht]
  constructor
  · simp [finalFs, applyEvent]
  · simp [finalFs, applyEvent]

theorem step_order_witness :
    (verify envOk).2 =
      [Event.launch, Event.newPage,
       Event.navigate (httpTarget homeUrl), Event.evalJs headerExpr,
       Event.printLine (homepageLine 64),
       Event.screenshot ("homepage_after.png") envOk.homeImage true,
       Event.navigate (httpTarget docsUrl), Event.evalJs headerExpr,
       Event.printLine (docsLine 64),
       Event.screenshot ("docs_after.png") envOk.docsImage true,
       Event.browserClose, Event.playwrightStop] ∧
    (finalFs (verify envOk).2 (fun _ => some ("stale")) ("homepage_after.png")
        = some envOk.homeImage ∧
     finalFs (verify envOk).2 (fun _ => some ("stale")) ("docs_after.png")
        = some envOk.docsImage) :=
  ⟨(step_order envOk 64 64 rfl rfl rfl rfl rfl).1,
   (step_order envOk 64 64 rfl rfl rfl rfl rfl).2 (fun _ => some ("stale"))⟩

/-- Request target of the first navigation: the bare origin literal in the
source is requested with path "/". -/
theorem httpTarget_home : httpTarget homeUrl = "http://localhost:6007/" := by
  decide

/-- Request target of the second navigation is its URL literal unchanged. -/
theorem httpTarget_docs :
    httpTarget docsUrl = "http://localhost:6007/getting-started/installation/" := by
  decide

/-- C8: on a successful run the HTTP GET navigations are exactly to
http://localhost:6007/ then http://localhost:6007/getting-started/installation/
in that order, and on every run whatsoever each navigation a trace of verify
contains targets one of those two URLs and no other. -/
theorem http_get_targets :
    (∀ env : Env, ∀ h1 h2 : Nat, env.launchOk = true → env.homeNav = true →
      env.homeHeader = some h1 → env.docsNav = true → env.docsHeader = some h2 →
      navigations (verify env).2 =
        ["http://localhost:6007/",
         "http://localhost:6007/getting-started/installation/"]) ∧
    (∀ env : Env, ∀ u : String, u ∈ navigations (verify env).2 →
      u = "http://localhost:6007/" ∨
      u = "http://localhost:6007/getting-started/installation/") := by
  constructor
  · intro env h1 h2 hl hn1 hh1 hn2 hh2
    simp [verify, verifyBody, launchChromium, goto, evalHeaderHeight,
      hl, hn1, hh1, hn2, hh2, navigations, httpTarget_home, httpTarget_docs]
  · intro env u hu
    rcases env with ⟨lo, hn, dn, hh, dh, hi, di⟩
    cases lo <;> cases hn <;> cases dn <;> cases hh <;> cases dh <;>
      simp_all [verify, verifyBody, launchChromium, goto, evalHeaderHeight,
        navigations, httpTarget_home, httpTarget_docs]

theorem http_get_targets_witness :
    navigations (verify envOk).2 =
      ["http://localhost:6007/",
       "http://localhost:6007/getting-started/installation/"] ∧
    ((verify envDown).1 = Except.error (Err.navigationError homeUrl) →
      navigations (verify envDown).2 = []) :=
  ⟨http_get_targets.1 envOk 64 64 rfl rfl rfl rfl rfl, fun _ => rfl⟩

/-- C9: two successive runs of verify against an unchanged server write the
same two file names and print numerically identical height lines, because the
outputs are a function of the server state alone; moreover rerunning the trace
on the directory left by the first run changes nothing, each fixed file name
being overwritten with the identical image. -/
theorem two_run_determinism (env : Env) (h1 h2 : Nat)
    (hl : env.launchOk = true) (hn1 : env.homeNav = true)
    (hh1 : env.homeHeader = some h1) (hn2 : env.docsNav = true)
    (hh2 : env.docsHeader = some h2) :
    filesWritten (verify env).2 = ["homepage_after.png", "docs_after.png"] ∧
    stdoutLines (verify env).2 = [homepageLine h1, docsLine h2] ∧
    (∀ fs0 : String → Option String, ∀ q : String,
      finalFs (verify env).2 (finalFs (verify env).2 fs0) q
        = finalFs (verify env).2 fs0 q) := by
  have ht := success_trace_eq env h1 h2 hl hn1 hh1 hn2 hh2
  refine ⟨?_, ?_, fun fs0 q => ?_⟩
  · rw [ht]; rfl
  · rw [ht]; rfl
  rw [ht]
  by_cases hq1 : q = "docs_after.png" <;> by_cases hq2 : q = "homepage_after.png" <;>
    simp [finalFs, applyEvent, hq1, hq2]

theorem two_run_determinism_witness :
    filesWritten (verify envOk).2 = ["homepage_after.png", "docs_after.png"] ∧
    stdoutLines (verify envOk).2 = [homepageLine 64, docsLine 64] ∧
    finalFs (verify envOk).2 (finalFs (verify envOk).2 (fun _ => none)) ("other.txt")
      = finalFs (verify envOk).2 (fun _ => none) ("other.txt") :=
  ⟨(two_run_determinism envOk 64 64 rfl rfl rfl rfl rfl).1,
   (two_run_determinism envOk 64 64 rfl rfl rfl rfl rfl).2.1,
   (two_run_determinism envOk 64 64 rfl rfl rfl rfl rfl).2.2 (fun _ => none) ("other.txt")⟩

/-- C10: importing the module under any name other than the main-program name
performs no effect at all and succeeds, and verify runs exactly when the module
is executed as the main program. -/
theorem import_no_side_effects :
    (∀ modName : String, ∀ env : Env, modName ≠ "__main__" →
      moduleRun modName env = (Except.ok (), ([] : List Event))) ∧
    (∀ env : Env, moduleRun ("__main__") env = verify env) := by
  constructor
  · intro modName env h
    simp [moduleRun, h]
  · intro env
    simp [moduleRun]

theorem import_no_side_effects_witness :
    moduleRun ("verify_layout") envOk = (Except.ok (), ([] : List Event)) ∧
    moduleRun ("__main__") envOk = verify envOk :=
  ⟨import_no_side_effects.1 ("verify_layout") envOk (by decide),
   import_no_side_effects.2 envOk⟩

end VerifyLayout
